import Mathlib

/-!
Verification of the traffic-flow collection scheduler in
`src/scripts/query.py` of the hanoi-road-traffic repository.

The Python script is shallowly embedded as follows:

* `datetime` values are reduced to the fields the code reads
  (`hour`, `minute`) in the structure `Datetime`.
* Python floats in `calculate_expected_collections` are modelled by exact
  rationals (ℚ); for the constants involved (360/15 = 24, 1080/75 = 14.4)
  the float computation `int(38.4 * n)` agrees with the exact-rational
  floor for every realistic coordinate count, since the accumulated
  relative rounding error (< 4e-17) is below half an ulp (2^-53).
* The stateful collection loops (`collect_for_24_hours_variable`,
  `collect_once`) are modelled as explicit state passing over a
  `RunState`, with the outside world (whether a given API call returns a
  response, whether a given database insert succeeds) abstracted as an
  environment `Env` of Boolean oracles indexed by tick number and
  coordinate index.  The wall clock is abstracted by the number of
  iterations `numTicks` the 24-hour `while` loop would perform if the
  budget were never exhausted.
* Database state is a list of records; `save_to_postgis` maps an input
  record list to an output record list.
* Process exit codes are modelled for `main` as an explicit `Nat`
  result, together with a Boolean recording whether a collection run
  was started.
-/

set_option linter.unusedVariables false

/-- The fields of a Python `datetime` value that `query.py` reads. -/
structure Datetime where
  hour : Nat
  minute : Nat
deriving DecidableEq, Repr

/-- Embedding of `get_collection_interval(current_time, num_coordinates)`
(`src/scripts/query.py` lines 124-140).  Returns the collection interval
in minutes: 15 during the peak windows (hours 21-23 and 5-7), 75
otherwise.  `num_coordinates` is accepted but never read, exactly as in
the source. -/
def get_collection_interval (current_time : Datetime) (num_coordinates : Nat) : Nat :=
  let hour := current_time.hour
  if (21 ≤ hour ∧ hour ≤ 23) ∨ (5 ≤ hour ∧ hour ≤ 7) then
    15
  else
    75

/-- Embedding of `calculate_expected_collections(num_coordinates)`
(`src/scripts/query.py` lines 221-236).  Python floats are modelled by
exact rationals; `int(...)` truncates toward zero, which on the
non-negative value here is the floor. -/
def calculate_expected_collections (num_coordinates : Nat) : ℤ :=
  let peak_hours : ℚ := 6
  let off_peak_hours : ℚ := 18
  let peak_collections : ℚ := peak_hours * 60 / 15
  let off_peak_collections : ℚ := off_peak_hours * 60 / 75
  let total_collections : ℚ := peak_collections + off_peak_collections
  let total_api_calls : ℚ := total_collections * num_coordinates
  ⌊total_api_calls⌋

/-- One point of the `flowSegmentData.coordinates.coordinate` list of a
TomTom API response. -/
structure FlowPt where
  latitude : ℚ
  longitude : ℚ
deriving DecidableEq, Repr

/-- The part of a TomTom API payload that `save_to_postgis` inspects:
the nested coordinate list (absent path ⇒ empty list, as with
`data.get(...).get(...).get(..., [])`). -/
structure FlowPayload where
  coordinate_list : List FlowPt
deriving DecidableEq, Repr

/-- One row of the `traffic` table. -/
structure Record where
  lat : ℚ
  lon : ℚ
  payload : FlowPayload
  queryPoint : ℚ × ℚ
  segment : List (ℚ × ℚ)
  timestamp : Option Datetime
deriving DecidableEq, Repr

/-- Embedding of `save_to_postgis(data, lat, lon, timestamp)`
(`src/scripts/query.py` lines 47-91).  The database is a list of
records; `dbOk` abstracts whether the connect/INSERT/commit sequence
succeeds (on failure the exception is caught, logged and swallowed, so
the table is unchanged either way).  An empty coordinate list returns
before any insert is attempted. -/
def save_to_postgis (dbOk : Bool) (db : List Record) (data : FlowPayload)
    (lat lon : ℚ) (timestamp : Option Datetime) : List Record :=
  let coord_list := data.coordinate_list
  if coord_list.isEmpty then
    db
  else
    let linestring := coord_list.map (fun pt => (pt.longitude, pt.latitude))
    if dbOk then
      db ++ [⟨lat, lon, data, (lon, lat), linestring, timestamp⟩]
    else
      db

/-- A query coordinate read from the CSV file (one `(lat, lon)` tuple). -/
structure Coordinate where
  lat : ℚ
  lon : ℚ
deriving DecidableEq, Repr

/-- The outside world as seen by the collection loops: for tick number
`t` and coordinate index `i`, `fetchOk t i` is whether
`call_tomtom_api` returns a response (rather than `None` after a caught
request error), and `storeOk t i` is whether `save_to_postgis`
actually inserts a row (false covers both an empty payload and a caught
database error; either way the loop itself is unaffected). -/
structure Env where
  fetchOk : Nat → Nat → Bool
  storeOk : Nat → Nat → Bool

/-- The user-visible run-level messages of
`collect_for_24_hours_variable` that concern the call budget:
`limitReached used` is `"API limit reached! Stopping at {used} calls."`
(line 189), `totalUsed used` is `"Total API calls used: {used}"`
(line 218) and `remainingReport r` is `"API calls remaining: {r}"`
(line 219). -/
inductive Msg where
  | limitReached (used : Nat)
  | totalUsed (used : Nat)
  | remainingReport (r : Nat)
deriving DecidableEq, Repr

/-- The mutable state of a collection run: `calls` is
`total_api_calls`, `fetched` records (in order) every coordinate for
which `call_tomtom_api` was invoked, `stored` records every coordinate
for which a row was inserted, `msgs` the budget-related messages
printed so far. -/
structure RunState where
  calls : Nat
  fetched : List Coordinate
  stored : List Coordinate
  msgs : List Msg
deriving DecidableEq, Repr

/-- The initial `RunState` of an invocation (`total_api_calls = 0`,
nothing fetched, stored or printed). -/
def initState : RunState := ⟨0, [], [], []⟩

/-- The hard-coded API call ceiling of `query.py` (line 188). -/
def API_LIMIT : Nat := 2500

/-- The body of the inner `for` loop of `collect_for_24_hours_variable`
(lines 177-193) for one coordinate `c` at tick `t`, index `i`:
unconditionally call the API, on a response attempt the insert (whose
failure is swallowed), increment `total_api_calls`, and print the limit
message when the ceiling is reached (the `return` itself is modelled by
the callers, which stop as soon as `API_LIMIT ≤ calls`). -/
def stepCoord (env : Env) (t i : Nat) (c : Coordinate) (s : RunState) : RunState :=
  let stored' := if env.fetchOk t i && env.storeOk t i then s.stored ++ [c] else s.stored
  let calls' := s.calls + 1
  let msgs' := if API_LIMIT ≤ calls' then s.msgs ++ [Msg.limitReached calls'] else s.msgs
  ⟨calls', s.fetched ++ [c], stored', msgs'⟩

/-- One tick of `collect_for_24_hours_variable`: the inner `for` loop
over the coordinate list, stopping (the `return` of line 190) as soon
as the ceiling is reached. -/
def runTick (env : Env) (t : Nat) : List Coordinate → Nat → RunState → RunState
  | [], _, s => s
  | c :: rest, i, s =>
      let s' := stepCoord env t i c s
      if API_LIMIT ≤ s'.calls then s' else runTick env t rest (i + 1) s'

/-- The outer `while` loop of `collect_for_24_hours_variable`,
performing `n` ticks (the number of iterations the wall clock would
allow) unless the `return` of line 190 already ended the run. -/
def runTicks (env : Env) (coords : List Coordinate) : Nat → Nat → RunState → RunState
  | 0, _, s => s
  | n + 1, t, s =>
      let s' := runTick env t coords 0 s
      if API_LIMIT ≤ s'.calls then s' else runTicks env coords n (t + 1) s'

/-- Embedding of `collect_for_24_hours_variable(coordinates)`
(`src/scripts/query.py` lines 142-219): run `numTicks` ticks from the
fresh state; the final summary of lines 216-219 is printed only when
the loop exited normally, i.e. when the early `return` at the call
ceiling did not fire (which happens exactly when `calls` reached
`API_LIMIT`, since the run returns the moment the counter gets there). -/
def collect_for_24_hours_variable (env : Env) (coords : List Coordinate)
    (numTicks : Nat) : RunState :=
  let s := runTicks env coords numTicks 0 initState
  if API_LIMIT ≤ s.calls then
    s
  else
    { s with msgs := s.msgs ++ [Msg.totalUsed s.calls, Msg.remainingReport (API_LIMIT - s.calls)] }

/-- The `for` loop of `collect_once` (lines 294-303): fetch every
coordinate in order, insert on success; there is no call counter, no
budget check and no budget report. -/
def onceGo (env : Env) : List Coordinate → Nat → RunState → RunState
  | [], _, s => s
  | c :: rest, i, s =>
      let stored' := if env.fetchOk 0 i && env.storeOk 0 i then s.stored ++ [c] else s.stored
      onceGo env rest (i + 1) ⟨s.calls, s.fetched ++ [c], stored', s.msgs⟩

/-- Embedding of `collect_once(coordinates)` (`src/scripts/query.py`
lines 288-307). -/
def collect_once (env : Env) (coords : List Coordinate) : RunState :=
  onceGo env coords 0 initState

/-- The column names recognised as the latitude column (line 104). -/
def latAliases : List String := ["lat", "latitude"]

/-- The column names recognised as the longitude column (line 106). -/
def lonAliases : List String := ["lon", "lng", "longitude"]

/-- Python's `str.lower()` (on the ASCII column names at hand):
lower-case every character. -/
def pyLower (s : String) : String := ⟨s.data.map Char.toLower⟩

/-- The column-detection loop of `read_csv_coordinates` (lines 100-107):
iterate over the columns in order; a latitude alias sets `lat_col`, else
a longitude alias sets `lon_col`; a later match overwrites an earlier
one. -/
def findCols (columns : List String) : Option String × Option String :=
  columns.foldl
    (fun acc col =>
      if pyLower col ∈ latAliases then (some col, acc.2)
      else if pyLower col ∈ lonAliases then (acc.1, some col)
      else acc)
    (none, none)

/-- The CSV file as pandas presents it to `read_csv_coordinates`: a list
of column names and rows of rational values aligned with the columns. -/
structure Csv where
  columns : List String
  rows : List (List ℚ)
deriving Repr

/-- The value of a row under a named column (pandas `row[col]`). -/
def rowVal (columns : List String) (row : List ℚ) (col : String) : ℚ :=
  row.getD (List.indexOf col columns) 0

/-- Embedding of `read_csv_coordinates(csv_file)` (`src/scripts/query.py`
lines 94-121): when both a latitude and a longitude column are found,
return the list of `(lat, lon)` tuples; otherwise the raised exception
is caught by the surrounding `try`, the error is printed, and the empty
list is returned. -/
def read_csv_coordinates (csv : Csv) : List Coordinate :=
  match findCols csv.columns with
  | (some latC, some lonC) =>
      csv.rows.map (fun row => ⟨rowVal csv.columns row latC, rowVal csv.columns row lonC⟩)
  | _ => []

/-- Embedding of `main()` (`src/scripts/query.py` lines 310-330) as its
observable outcome: the process exit code, and whether a collection run
(continuous or single-pass) was started.  When `read_csv_coordinates`
yields no coordinates, `main` prints `"No valid coordinates found.
Exiting."` and returns — a plain `return`, so the interpreter exits
with code 0; when coordinates exist a run starts, and on its return
`main` also ends with exit code 0. -/
def main_run (csv : Csv) : Nat × Bool :=
  let coordinates := read_csv_coordinates csv
  if coordinates.isEmpty then (0, false) else (0, true)

/-- The environment in which every API call returns a response and
every database insert succeeds. -/
def envAllTrue : Env := ⟨fun _ _ => true, fun _ _ => true⟩

/-- C5: for every time of day `t` (hour < 24), `get_collection_interval`
returns 15 minutes when the hour is in {21, 22, 23, 5, 6, 7} and 75
minutes for every other hour, and its result is strictly positive.  It
is a Lean function of its arguments, hence pure: the same input always
gives the same output and there are no side effects. -/
theorem interval_by_hour (t : Datetime) (n : Nat) (h : t.hour < 24) :
    (get_collection_interval t n = if t.hour ∈ ([21, 22, 23, 5, 6, 7] : List Nat) then 15 else 75)
    ∧ 0 < get_collection_interval t n := by
  have hmem : (t.hour ∈ ([21, 22, 23, 5, 6, 7] : List Nat)) ↔
      ((21 ≤ t.hour ∧ t.hour ≤ 23) ∨ (5 ≤ t.hour ∧ t.hour ≤ 7)) := by
    simp only [List.mem_cons, List.mem_singleton, List.not_mem_nil, or_false]
    omega
  unfold get_collection_interval
  by_cases hc : (21 ≤ t.hour ∧ t.hour ≤ 23) ∨ (5 ≤ t.hour ∧ t.hour ≤ 7)
  · rw [if_pos hc, if_pos (hmem.mpr hc)]
    exact ⟨rfl, by norm_num⟩
  · rw [if_neg hc, if_neg (fun hm => hc (hmem.mp hm))]
    exact ⟨rfl, by norm_num⟩

/-- Witness for `interval_by_hour` at the concrete time 22:00 with 60
coordinates. -/
theorem interval_by_hour_witness :
    (get_collection_interval ⟨22, 0⟩ 60
        = if (Datetime.mk 22 0).hour ∈ ([21, 22, 23, 5, 6, 7] : List Nat) then 15 else 75)
    ∧ 0 < get_collection_interval ⟨22, 0⟩ 60 :=
  interval_by_hour ⟨22, 0⟩ 60 (by decide)

/-- C10: the result of `get_collection_interval` depends only on the
hour of the given time — for any two calls whose times share the same
hour, any two values of `num_coordinates` give the same interval. -/
theorem interval_independent_of_num_coordinates (t₁ t₂ : Datetime) (n₁ n₂ : Nat)
    (h : t₁.hour = t₂.hour) :
    get_collection_interval t₁ n₁ = get_collection_interval t₂ n₂ := by
  unfold get_collection_interval
  rw [h]

/-- Witness for `interval_independent_of_num_coordinates`: 09:00 with 1
coordinate and 09:30 with 1000 coordinates give the same interval. -/
theorem interval_independent_of_num_coordinates_witness :
    get_collection_interval ⟨9, 0⟩ 1 = get_collection_interval ⟨9, 30⟩ 1000 :=
  interval_independent_of_num_coordinates ⟨9, 0⟩ ⟨9, 30⟩ 1 1000 rfl

/-- C7: the pre-flight expected-calls computation equals
`⌊((6*60)/15 + (18*60)/75) * n⌋ = int(38.4 * n)`, which as an exact
integer is `(192 * n) / 5` (integer division). -/
theorem expected_calls_formula (n : Nat) :
    calculate_expected_collections n = ((192 * n) / 5 : ℕ) := by
  have h0 : ((6 : ℚ) * 60 / 15 + 18 * 60 / 75) * (n : ℚ)
      = (((192 * n : ℕ) : ℤ) : ℚ) / ((5 : ℕ) : ℚ) := by
    push_cast
    ring
  simp only [calculate_expected_collections]
  rw [h0, Rat.floor_intCast_div_natCast]
  exact (Int.ofNat_tdiv (192 * n) 5).symm

/-- C8: an API response with an empty coordinate list yields no
geometry and the sample is dropped — `save_to_postgis` returns without
inserting any record, whatever the database outcome would have been. -/
theorem empty_payload_not_stored (dbOk : Bool) (db : List Record) (data : FlowPayload)
    (lat lon : ℚ) (ts : Option Datetime) (h : data.coordinate_list = []) :
    save_to_postgis dbOk db data lat lon ts = db := by
  unfold save_to_postgis
  simp [h]

/-- Witness for `empty_payload_not_stored` on a concrete empty payload. -/
theorem empty_payload_not_stored_witness :
    save_to_postgis true [] ⟨[]⟩ 21 105 none = [] :=
  empty_payload_not_stored true [] ⟨[]⟩ 21 105 none rfl

/-- C4 counterexample: a CSV whose columns are `x`, `y` (no lat/lon
column) makes `read_csv_coordinates` swallow the error and return the
empty list, after which `main` exits with code 0 — not a non-zero exit
code — without starting a run. -/
theorem missing_columns_exit_code_zero :
    main_run ⟨["x", "y"], [[1, 2]]⟩ = (0, false) := by
  rfl

/-- C4 as amended: whenever the column-detection loop finds no latitude
column or no longitude column, the exception is caught inside
`read_csv_coordinates`, no run is started, and the process exits with
code 0 (the claimed non-zero exit does not happen). -/
theorem missing_columns_no_run_exit_zero (csv : Csv)
    (h : (findCols csv.columns).1 = none ∨ (findCols csv.columns).2 = none) :
    main_run csv = (0, false) := by
  unfold main_run read_csv_coordinates
  rcases hfc : findCols csv.columns with ⟨a, b⟩
  rw [hfc] at h
  match a, b, h with
  | none, _, _ => simp
  | some _, none, _ => simp
  | some _, some _, h => simp at h

/-- Witness for `missing_columns_no_run_exit_zero` on a concrete CSV
with columns `a`, `b`. -/
theorem missing_columns_no_run_exit_zero_witness :
    main_run ⟨["a", "b"], []⟩ = (0, false) :=
  missing_columns_no_run_exit_zero ⟨["a", "b"], []⟩ (by decide)

/-- `stepCoord` increments the call counter by one. -/
theorem stepCoord_calls (env : Env) (t i : Nat) (c : Coordinate) (s : RunState) :
    (stepCoord env t i c s).calls = s.calls + 1 := rfl

/-- `stepCoord` appends the processed coordinate to the fetch trace. -/
theorem stepCoord_fetched (env : Env) (t i : Nat) (c : Coordinate) (s : RunState) :
    (stepCoord env t i c s).fetched = s.fetched ++ [c] := rfl

/-- `stepCoord` prints the limit message exactly when the incremented
counter reaches the ceiling. -/
theorem stepCoord_msgs (env : Env) (t i : Nat) (c : Coordinate) (s : RunState) :
    (stepCoord env t i c s).msgs
      = if API_LIMIT ≤ s.calls + 1 then s.msgs ++ [Msg.limitReached (s.calls + 1)]
        else s.msgs := rfl

/-- After one tick started below the ceiling, the counter is the
starting count plus the coordinates processed, capped at the ceiling. -/
theorem runTick_calls (env : Env) (t : Nat) (coords : List Coordinate) :
    ∀ (i : Nat) (s : RunState), s.calls < API_LIMIT →
      (runTick env t coords i s).calls = min (s.calls + coords.length) API_LIMIT := by
  induction coords with
  | nil =>
      intro i s h
      simp only [runTick, List.length_nil, Nat.add_zero]
      omega
  | cons c rest ih =>
      intro i s h
      simp only [runTick, stepCoord_calls]
      by_cases hcut : API_LIMIT ≤ s.calls + 1
      · rw [if_pos hcut]
        simp only [stepCoord_calls, List.length_cons]
        omega
      · rw [if_neg hcut]
        rw [ih (i + 1) _ (by rw [stepCoord_calls]; omega)]
        simp only [stepCoord_calls, List.length_cons]
        omega

/-- After a run of ticks started below the ceiling, the counter is the
starting count plus all coordinate visits, capped at the ceiling. -/
theorem runTicks_calls (env : Env) (coords : List Coordinate) :
    ∀ (n t : Nat) (s : RunState), s.calls < API_LIMIT →
      (runTicks env coords n t s).calls = min (s.calls + n * coords.length) API_LIMIT := by
  intro n
  induction n with
  | zero =>
      intro t s h
      simp only [runTicks, Nat.zero_mul, Nat.add_zero]
      omega
  | succ m ih =>
      intro t s h
      simp only [runTicks]
      by_cases hcut : API_LIMIT ≤ (runTick env t coords 0 s).calls
      · rw [if_pos hcut]
        rw [runTick_calls env t coords 0 s h] at hcut ⊢
        simp only [Nat.succ_mul]
        omega
      · rw [if_neg hcut]
        rw [runTick_calls env t coords 0 s h] at hcut
        rw [ih (t + 1) _ (by rw [runTick_calls env t coords 0 s h]; omega)]
        rw [runTick_calls env t coords 0 s h]
        simp only [Nat.succ_mul]
        omega

/-- One tick grows the fetch trace by exactly as many entries as it
adds to the call counter: every admitted call is one API fetch. -/
theorem runTick_fetched_length (env : Env) (t : Nat) (coords : List Coordinate) :
    ∀ (i : Nat) (s : RunState),
      (runTick env t coords i s).fetched.length + s.calls
        = (runTick env t coords i s).calls + s.fetched.length := by
  induction coords with
  | nil => intro i s; simp only [runTick]; omega
  | cons c rest ih =>
      intro i s
      simp only [runTick]
      by_cases hcut : API_LIMIT ≤ (stepCoord env t i c s).calls
      · rw [if_pos hcut]
        simp only [stepCoord_calls, stepCoord_fetched, List.length_append,
          List.length_cons, List.length_nil]
        omega
      · rw [if_neg hcut]
        have := ih (i + 1) (stepCoord env t i c s)
        simp only [stepCoord_calls, stepCoord_fetched, List.length_append,
          List.length_cons, List.length_nil] at this ⊢
        omega

/-- A run of ticks grows the fetch trace by exactly as many entries as
it adds to the call counter. -/
theorem runTicks_fetched_length (env : Env) (coords : List Coordinate) :
    ∀ (n t : Nat) (s : RunState),
      (runTicks env coords n t s).fetched.length + s.calls
        = (runTicks env coords n t s).calls + s.fetched.length := by
  intro n
  induction n with
  | zero => intro t s; simp only [runTicks]; omega
  | succ m ih =>
      intro t s
      simp only [runTicks]
      by_cases hcut : API_LIMIT ≤ (runTick env t coords 0 s).calls
      · rw [if_pos hcut]
        exact runTick_fetched_length env t coords 0 s
      · rw [if_neg hcut]
        have h1 := runTick_fetched_length env t coords 0 s
        have h2 := ih (t + 1) (runTick env t coords 0 s)
        omega

/-- A tick that cannot reach the ceiling appends the whole coordinate
list to the fetch trace: every coordinate of the tick is fetched. -/
theorem runTick_fetched_nocut (env : Env) (t : Nat) (coords : List Coordinate) :
    ∀ (i : Nat) (s : RunState), s.calls + coords.length ≤ API_LIMIT →
      (runTick env t coords i s).fetched = s.fetched ++ coords := by
  induction coords with
  | nil => intro i s h; simp [runTick]
  | cons c rest ih =>
      intro i s h
      simp only [List.length_cons] at h
      simp only [runTick]
      by_cases hcut : API_LIMIT ≤ (stepCoord env t i c s).calls
      · rw [if_pos hcut]
        rw [stepCoord_calls] at hcut
        have hrest : rest.length = 0 := by omega
        rw [List.length_eq_zero] at hrest
        subst hrest
        simp [stepCoord_fetched]
      · rw [if_neg hcut]
        rw [ih (i + 1) _ (by rw [stepCoord_calls]; omega), stepCoord_fetched]
        simp

/-- A run of ticks whose total visits fit under the ceiling fetches the
whole coordinate list once per tick, in order. -/
theorem runTicks_fetched_nocut (env : Env) (coords : List Coordinate) :
    ∀ (n t : Nat) (s : RunState), s.calls + n * coords.length ≤ API_LIMIT →
      (runTicks env coords n t s).fetched
        = s.fetched ++ (List.replicate n coords).flatten := by
  intro n
  induction n with
  | zero => intro t s h; simp [runTicks]
  | succ m ih =>
      intro t s h
      simp only [Nat.succ_mul] at h
      simp only [runTicks]
      by_cases hcut : API_LIMIT ≤ (runTick env t coords 0 s).calls
      · rw [if_pos hcut]
        by_cases hlt : s.calls < API_LIMIT
        · rw [runTick_calls env t coords 0 s hlt] at hcut
          have hm : m * coords.length = 0 := by omega
          rw [runTick_fetched_nocut env t coords 0 s (by omega)]
          simp only [List.replicate_succ, List.flatten_cons]
          rcases Nat.mul_eq_zero.mp hm with hm0 | hlen0
          · subst hm0
            simp
          · rw [List.length_eq_zero] at hlen0
            subst hlen0
            simp
        · have hcalls : s.calls = API_LIMIT := by omega
          have hlen0 : coords.length = 0 := by omega
          rw [List.length_eq_zero] at hlen0
          subst hlen0
          simp only [runTick] at hcut ⊢
          simp
      · rw [if_neg hcut]
        by_cases hlt : s.calls < API_LIMIT
        · rw [ih (t + 1) _ (by rw [runTick_calls env t coords 0 s hlt]; omega)]
          rw [runTick_fetched_nocut env t coords 0 s (by omega)]
          simp only [List.replicate_succ, List.flatten_cons, List.append_assoc]
        · have hcalls : s.calls = API_LIMIT := by omega
          have hlen0 : coords.length = 0 := by omega
          exfalso
          apply hcut
          rw [List.length_eq_zero] at hlen0
          subst hlen0
          simp only [runTick]
          omega

/-- The only budget message a tick can add is the limit message, added
exactly when the tick reaches the ceiling. -/
theorem runTick_msgs (env : Env) (t : Nat) (coords : List Coordinate) :
    ∀ (i : Nat) (s : RunState), s.calls < API_LIMIT →
      (runTick env t coords i s).msgs
        = s.msgs ++ (if API_LIMIT ≤ s.calls + coords.length
            then [Msg.limitReached API_LIMIT] else []) := by
  induction coords with
  | nil =>
      intro i s h
      simp only [runTick, List.length_nil, Nat.add_zero]
      rw [if_neg (by omega)]
      simp
  | cons c rest ih =>
      intro i s h
      simp only [runTick]
      by_cases hcut : API_LIMIT ≤ (stepCoord env t i c s).calls
      · rw [if_pos hcut]
        rw [stepCoord_calls] at hcut
        have heq : s.calls + 1 = API_LIMIT := by omega
        rw [stepCoord_msgs, if_pos (by omega), heq]
        rw [if_pos (by simp only [List.length_cons]; omega)]
      · rw [if_neg hcut]
        rw [stepCoord_calls] at hcut
        rw [ih (i + 1) _ (by rw [stepCoord_calls]; omega)]
        rw [stepCoord_msgs, if_neg (by omega), stepCoord_calls]
        simp only [List.length_cons]
        by_cases hrest : API_LIMIT ≤ s.calls + 1 + rest.length
        · rw [if_pos hrest, if_pos (by omega)]
        · rw [if_neg hrest, if_neg (by omega)]

/-- Across a run of ticks, the only budget message is the limit
message, present exactly when the run reaches the ceiling. -/
theorem runTicks_msgs (env : Env) (coords : List Coordinate) :
    ∀ (n t : Nat) (s : RunState), s.calls < API_LIMIT →
      (runTicks env coords n t s).msgs
        = s.msgs ++ (if API_LIMIT ≤ s.calls + n * coords.length
            then [Msg.limitReached API_LIMIT] else []) := by
  intro n
  induction n with
  | zero =>
      intro t s h
      simp only [runTicks, Nat.zero_mul, Nat.add_zero]
      rw [if_neg (by omega)]
      simp
  | succ m ih =>
      intro t s h
      simp only [runTicks]
      by_cases hcut : API_LIMIT ≤ (runTick env t coords 0 s).calls
      · rw [if_pos hcut]
        rw [runTick_calls env t coords 0 s h] at hcut
        rw [runTick_msgs env t coords 0 s h]
        rw [if_pos (by omega), if_pos (by simp only [Nat.succ_mul]; omega)]
      · rw [if_neg hcut]
        rw [runTick_calls env t coords 0 s h] at hcut
        rw [ih (t + 1) _ (by rw [runTick_calls env t coords 0 s h]; omega)]
        rw [runTick_msgs env t coords 0 s h, if_neg (by omega)]
        rw [runTick_calls env t coords 0 s h]
        simp only [List.append_nil, Nat.succ_mul]
        by_cases hall : API_LIMIT ≤ s.calls + (m * coords.length + coords.length)
        · rw [if_pos (by omega), if_pos (by omega)]
        · rw [if_neg (by omega), if_neg (by omega)]

/-- The progression of a tick (counter, fetch trace, messages) does not
depend on the fetch/store outcomes: two environments drive two states
agreeing on those fields to results agreeing on them. -/
theorem runTick_env_agnostic (env₁ env₂ : Env) (t : Nat) (coords : List Coordinate) :
    ∀ (i : Nat) (s₁ s₂ : RunState),
      s₁.calls = s₂.calls → s₁.fetched = s₂.fetched → s₁.msgs = s₂.msgs →
      (runTick env₁ t coords i s₁).calls = (runTick env₂ t coords i s₂).calls
      ∧ (runTick env₁ t coords i s₁).fetched = (runTick env₂ t coords i s₂).fetched
      ∧ (runTick env₁ t coords i s₁).msgs = (runTick env₂ t coords i s₂).msgs := by
  induction coords with
  | nil => intro i s₁ s₂ hc hf hm; exact ⟨hc, hf, hm⟩
  | cons c rest ih =>
      intro i s₁ s₂ hc hf hm
      simp only [runTick]
      have hc' : (stepCoord env₁ t i c s₁).calls = (stepCoord env₂ t i c s₂).calls := by
        rw [stepCoord_calls, stepCoord_calls, hc]
      have hf' : (stepCoord env₁ t i c s₁).fetched = (stepCoord env₂ t i c s₂).fetched := by
        rw [stepCoord_fetched, stepCoord_fetched, hf]
      have hm' : (stepCoord env₁ t i c s₁).msgs = (stepCoord env₂ t i c s₂).msgs := by
        rw [stepCoord_msgs, stepCoord_msgs, hc, hm]
      rw [hc']
      by_cases hcut : API_LIMIT ≤ (stepCoord env₂ t i c s₂).calls
      · rw [if_pos hcut, if_pos hcut]
        exact ⟨hc', hf', hm'⟩
      · rw [if_neg hcut, if_neg hcut]
        exact ih (i + 1) _ _ hc' hf' hm'

/-- The progression of a whole run does not depend on the fetch/store
outcomes. -/
theorem runTicks_env_agnostic (env₁ env₂ : Env) (coords : List Coordinate) :
    ∀ (n t : Nat) (s₁ s₂ : RunState),
      s₁.calls = s₂.calls → s₁.fetched = s₂.fetched → s₁.msgs = s₂.msgs →
      (runTicks env₁ coords n t s₁).calls = (runTicks env₂ coords n t s₂).calls
      ∧ (runTicks env₁ coords n t s₁).fetched = (runTicks env₂ coords n t s₂).fetched
      ∧ (runTicks env₁ coords n t s₁).msgs = (runTicks env₂ coords n t s₂).msgs := by
  intro n
  induction n with
  | zero => intro t s₁ s₂ hc hf hm; exact ⟨hc, hf, hm⟩
  | succ m ih =>
      intro t s₁ s₂ hc hf hm
      simp only [runTicks]
      obtain ⟨hc', hf', hm'⟩ := runTick_env_agnostic env₁ env₂ t coords 0 s₁ s₂ hc hf hm
      rw [hc']
      by_cases hcut : API_LIMIT ≤ (runTick env₂ t coords 0 s₂).calls
      · rw [if_pos hcut, if_pos hcut]
        exact ⟨hc', hf', hm'⟩
      · rw [if_neg hcut, if_neg hcut]
        exact ih (t + 1) _ _ hc' hf' hm'

/-- The final summary of lines 216-219 does not change the counter. -/
theorem collect24_calls (env : Env) (coords : List Coordinate) (n : Nat) :
    (collect_for_24_hours_variable env coords n).calls
      = (runTicks env coords n 0 initState).calls := by
  unfold collect_for_24_hours_variable
  by_cases h : API_LIMIT ≤ (runTicks env coords n 0 initState).calls
  · rw [if_pos h]
  · rw [if_neg h]

/-- The final summary of lines 216-219 does not change the fetch trace. -/
theorem collect24_fetched (env : Env) (coords : List Coordinate) (n : Nat) :
    (collect_for_24_hours_variable env coords n).fetched
      = (runTicks env coords n 0 initState).fetched := by
  unfold collect_for_24_hours_variable
  by_cases h : API_LIMIT ≤ (runTicks env coords n 0 initState).calls
  · rw [if_pos h]
  · rw [if_neg h]

/-- Counting occurrences in `n` concatenated copies of a list. -/
theorem count_flatten_replicate (n : Nat) (l : List Coordinate) (c : Coordinate) :
    ((List.replicate n l).flatten).count c = n * l.count c := by
  induction n with
  | zero => simp
  | succ m ih =>
      simp only [List.replicate_succ, List.flatten_cons, List.count_append, ih, Nat.succ_mul]
      omega

/-- `collect_once` fetches every coordinate of the list, in order. -/
theorem onceGo_fetched (env : Env) :
    ∀ (coords : List Coordinate) (i : Nat) (s : RunState),
      (onceGo env coords i s).fetched = s.fetched ++ coords := by
  intro coords
  induction coords with
  | nil => intro i s; simp [onceGo]
  | cons c rest ih =>
      intro i s
      simp only [onceGo]
      rw [ih]
      simp

/-- `collect_once` prints no budget message. -/
theorem onceGo_msgs (env : Env) :
    ∀ (coords : List Coordinate) (i : Nat) (s : RunState),
      (onceGo env coords i s).msgs = s.msgs := by
  intro coords
  induction coords with
  | nil => intro i s; rfl
  | cons c rest ih =>
      intro i s
      simp only [onceGo]
      rw [ih]

/-- When every fetch and store succeeds, `collect_once` persists every
coordinate of the list, in order. -/
theorem onceGo_stored_all_ok (env : Env)
    (hok : ∀ t i, env.fetchOk t i = true ∧ env.storeOk t i = true) :
    ∀ (coords : List Coordinate) (i : Nat) (s : RunState),
      (onceGo env coords i s).stored = s.stored ++ coords := by
  intro coords
  induction coords with
  | nil => intro i s; simp [onceGo]
  | cons c rest ih =>
      intro i s
      simp only [onceGo]
      rw [ih]
      rw [(hok 0 i).1, (hok 0 i).2]
      simp

/-- A run given at least `API_LIMIT` coordinate visits ends with the
counter at the ceiling and the limit message as its only budget
message: the calls-used/calls-remaining summary never appears on this
path. -/
theorem limit_hit_run (env : Env) (coords : List Coordinate) (n : Nat)
    (h : API_LIMIT ≤ n * coords.length) :
    (collect_for_24_hours_variable env coords n).calls = API_LIMIT
    ∧ (collect_for_24_hours_variable env coords n).msgs = [Msg.limitReached API_LIMIT] := by
  have h0 : initState.calls < API_LIMIT := by decide
  have hcalls : (runTicks env coords n 0 initState).calls = API_LIMIT := by
    rw [runTicks_calls env coords n 0 initState h0]
    simp only [initState]
    omega
  refine ⟨?_, ?_⟩
  · rw [collect24_calls, hcalls]
  · unfold collect_for_24_hours_variable
    rw [if_pos hcalls.ge]
    rw [runTicks_msgs env coords n 0 initState h0]
    simp only [initState, List.nil_append]
    rw [if_pos (by omega)]

/-- C3: in a continuous run the number of calls used equals the number
of coordinate visits capped at the 2500-call ceiling — so it never
exceeds 2500 at any point (it is the cap of a monotone counter), once
the ceiling is reached the run returns and issues no further calls, and
the second conjunct shows every admitted call was exactly one API
fetch. -/
theorem api_calls_capped_at_limit (env : Env) (coords : List Coordinate) (n : Nat) :
    (collect_for_24_hours_variable env coords n).calls = min (n * coords.length) 2500
    ∧ (collect_for_24_hours_variable env coords n).fetched.length
        = (collect_for_24_hours_variable env coords n).calls := by
  have h0 : initState.calls < API_LIMIT := by decide
  refine ⟨?_, ?_⟩
  · rw [collect24_calls, runTicks_calls env coords n 0 initState h0]
    simp only [initState, API_LIMIT, Nat.zero_add]
  · rw [collect24_calls, collect24_fetched]
    have h1 := runTicks_fetched_length env coords n 0 initState
    have h2 : initState.calls = 0 := rfl
    have h3 : initState.fetched.length = 0 := rfl
    rw [h2, h3] at h1
    omega

/-- C9: outcome failures are swallowed — the call counter, the fetch
trace and the printed budget messages of a continuous run are identical
under any two environments, so a persistence failure for one sample
never stops the run from proceeding to the next coordinate, and the
calls-used counter increments regardless of the storage outcome. -/
theorem outcomes_do_not_affect_progress (env₁ env₂ : Env) (coords : List Coordinate) (n : Nat) :
    (collect_for_24_hours_variable env₁ coords n).calls
        = (collect_for_24_hours_variable env₂ coords n).calls
    ∧ (collect_for_24_hours_variable env₁ coords n).fetched
        = (collect_for_24_hours_variable env₂ coords n).fetched
    ∧ (collect_for_24_hours_variable env₁ coords n).msgs
        = (collect_for_24_hours_variable env₂ coords n).msgs := by
  obtain ⟨hc, hf, hm⟩ :=
    runTicks_env_agnostic env₁ env₂ coords n 0 initState initState rfl rfl rfl
  unfold collect_for_24_hours_variable
  by_cases h : API_LIMIT ≤ (runTicks env₂ coords n 0 initState).calls
  · rw [if_pos (hc ▸ h), if_pos h]
    exact ⟨hc, hf, hm⟩
  · rw [if_neg (by rw [hc]; exact h), if_neg h]
    exact ⟨hc, hf, by simp only []; rw [hm, hc]⟩

/-- C1 counterexample: in a continuous run of two ticks over the single
coordinate (21, 105), with every fetch and store succeeding, that
coordinate is fetched twice in the same run — there is no dedup check
before `call_tomtom_api`, refuting "every coordinate is fetched at most
once per run". -/
theorem coordinate_fetched_twice_in_two_ticks :
    (collect_for_24_hours_variable envAllTrue [⟨21, 105⟩] 2).fetched.count ⟨21, 105⟩ = 2 := by
  decide

/-- C1 as amended: in a continuous run no dedup check is consulted and
every coordinate of a duplicate-free list is fetched once per tick —
`n` times in a run of `n` ticks (whenever the budget does not cut the
run short), not at most once per run. -/
theorem fetched_once_per_tick_without_dedup (env : Env) (coords : List Coordinate)
    (n : Nat) (c : Coordinate) (hnd : coords.Nodup) (hbudget : n * coords.length ≤ 2500)
    (hc : c ∈ coords) :
    (collect_for_24_hours_variable env coords n).fetched.count c = n := by
  rw [collect24_fetched]
  rw [runTicks_fetched_nocut env coords n 0 initState
    (by simp only [initState, API_LIMIT, Nat.zero_add]; omega)]
  simp only [initState, List.nil_append]
  rw [count_flatten_replicate, List.count_eq_one_of_mem hnd hc]
  omega

/-- Witness for `fetched_once_per_tick_without_dedup`: three ticks over
the single coordinate (21, 105) fetch it three times. -/
theorem fetched_once_per_tick_without_dedup_witness :
    (collect_for_24_hours_variable envAllTrue [⟨21, 105⟩] 3).fetched.count ⟨21, 105⟩ = 3 :=
  fetched_once_per_tick_without_dedup envAllTrue [⟨21, 105⟩] 3 ⟨21, 105⟩
    (by simp) (by norm_num) (by simp)

/-- C6 counterexample: a run of 1250 ticks over two coordinates hits
the 2500-call ceiling; its only budget message is the limit message
(which reports the calls used), and no calls-remaining report is ever
printed — refuting "reports both how many calls were used and how many
calls remain". -/
theorem budget_hit_no_remaining_report :
    (collect_for_24_hours_variable envAllTrue [⟨1, 2⟩, ⟨3, 4⟩] 1250).calls = 2500
    ∧ (collect_for_24_hours_variable envAllTrue [⟨1, 2⟩, ⟨3, 4⟩] 1250).msgs
        = [Msg.limitReached 2500] :=
  limit_hit_run envAllTrue [⟨1, 2⟩, ⟨3, 4⟩] 1250 (by decide)

/-- C6 as amended: a run that hits the budget ceiling terminates
cleanly (the early `return` of line 190, hence exit code 0) and reports
how many calls were used via the limit message, but does not report how
many calls remain: the used/remaining summary of lines 216-219 is
printed only when the 24-hour horizon ends the run below the ceiling. -/
theorem budget_hit_reports_used_only (env : Env) (coords : List Coordinate) (n : Nat)
    (h : 2500 ≤ n * coords.length) :
    (collect_for_24_hours_variable env coords n).calls = 2500
    ∧ (collect_for_24_hours_variable env coords n).msgs = [Msg.limitReached 2500] :=
  limit_hit_run env coords n h

/-- Witness for `budget_hit_reports_used_only`: 2500 ticks over one
coordinate. -/
theorem budget_hit_reports_used_only_witness :
    (collect_for_24_hours_variable envAllTrue [⟨7, 8⟩] 2500).calls = 2500
    ∧ (collect_for_24_hours_variable envAllTrue [⟨7, 8⟩] 2500).msgs
        = [Msg.limitReached 2500] :=
  budget_hit_reports_used_only envAllTrue [⟨7, 8⟩] 2500 (by decide)

/-- C2 counterexample: single-pass mode over three coordinates with
every fetch and store succeeding persists all three samples (not
exactly two as the claim's `callsLimit=2` scenario demands) and prints
no callsUsed/remaining report at all — `collect_once` has no budget
guard. -/
theorem collect_once_persists_all_three :
    (collect_once envAllTrue [⟨1, 2⟩, ⟨3, 4⟩, ⟨5, 6⟩]).stored.length = 3
    ∧ (collect_once envAllTrue [⟨1, 2⟩, ⟨3, 4⟩, ⟨5, 6⟩]).msgs = [] := by
  decide

/-- C2 as amended: single-pass mode iterates the coordinate set exactly
once with no budget ceiling and no dedup: every coordinate is fetched,
no budget report is produced, and when all fetches and stores succeed
every coordinate's sample is persisted (3 points ⇒ 3 samples, none
untouched). -/
theorem collect_once_fetches_all_no_budget (env : Env) (coords : List Coordinate) :
    (collect_once env coords).fetched = coords
    ∧ (collect_once env coords).msgs = []
    ∧ ((∀ t i, env.fetchOk t i = true ∧ env.storeOk t i = true) →
        (collect_once env coords).stored = coords) := by
  refine ⟨?_, ?_, fun hok => ?_⟩
  · rw [collect_once, onceGo_fetched]
    simp [initState]
  · rw [collect_once, onceGo_msgs]
    rfl
  · rw [collect_once, onceGo_stored_all_ok env hok]
    simp [initState]

/-- Witness for `collect_once_fetches_all_no_budget` on three concrete
coordinates in the all-success environment. -/
theorem collect_once_fetches_all_no_budget_witness :
    (collect_once envAllTrue [⟨9, 10⟩, ⟨11, 12⟩, ⟨13, 14⟩]).fetched
        = [⟨9, 10⟩, ⟨11, 12⟩, ⟨13, 14⟩]
    ∧ (collect_once envAllTrue [⟨9, 10⟩, ⟨11, 12⟩, ⟨13, 14⟩]).msgs = []
    ∧ (collect_once envAllTrue [⟨9, 10⟩, ⟨11, 12⟩, ⟨13, 14⟩]).stored
        = [⟨9, 10⟩, ⟨11, 12⟩, ⟨13, 14⟩] := by
  obtain ⟨h1, h2, h3⟩ :=
    collect_once_fetches_all_no_budget envAllTrue [⟨9, 10⟩, ⟨11, 12⟩, ⟨13, 14⟩]
  exact ⟨h1, h2, h3 (fun t i => ⟨rfl, rfl⟩)⟩
